import Mathlib

/-!
# CardList (src/components/CardList/card-list.jsx)

A shallow embedding of the `CardList` component, which displays CDS Hooks cards:
the severity ordering used by `render`, the three user-action handlers
(`takeSuggestion`, `dismissCard`, `launchLink`), `sendFeedback`, `remapUrl`
and the link section of `render`.

Conventions of the embedding.

* An optional JavaScript property is an `Option`; `none` is `undefined`.
* A handler returns the list of effects it performs, in program order.
* A JavaScript number that may be `NaN` is an `Option Int`; `none` is `NaN`.
* Collaborators that are called but not defined in the component (the token
  signer, the clock, the network) are fields of `Context`.
-/

namespace CardList

/-! ## Data model -/

/-- Suggestion of a card: the fields the component reads. -/
structure Suggestion where
  label : Option String
  uuid : Option String
  deriving DecidableEq, Repr

/-- Link of a card. -/
structure Link where
  label : String
  url : Option String
  type : String
  error : Option Bool
  deriving DecidableEq, Repr

/-- Override reason offered by a card (the `reason` argument of `dismissCard`). -/
structure OverrideReason where
  code : Option String
  system : Option String
  display : Option String
  deriving DecidableEq, Repr

/-- Source of a card. -/
structure Source where
  label : Option String
  url : Option String
  icon : Option String
  deriving DecidableEq, Repr

/-- Card as returned by a CDS service. -/
structure Card where
  uuid : Option String
  indicator : Option String
  summary : String
  detail : Option String
  source : Option Source
  suggestions : Option (List Suggestion)
  links : Option (List Link)
  overrideReasons : Option (List OverrideReason)
  serviceUrl : String
  deriving DecidableEq, Repr

/-! ## JavaScript primitives used by the component -/

/-- Truthiness of an optional string: `undefined` and `''` are falsy. -/
def truthy : Option String → Bool
  | none => false
  | some s => s != ""

/-- Truthiness of an optional boolean. -/
def truthyBool : Option Bool → Bool
  | none => false
  | some b => b

/-- String conversion performed by a template literal on an optional string. -/
def templateString : Option String → String
  | none => "undefined"
  | some s => s

/-- The value `SortCompare` of `Array.prototype.sort` works with: the comparator's
result, where `NaN` counts as `+0`. -/
def sortCompare {α : Type} (comparefn : α → α → Option Int) (x y : α) : Int :=
  (comparefn x y).getD 0

/-- Insertion of `x` in front of the first element it does not sort after. -/
def insertSorted {α : Type} (comparefn : α → α → Option Int) (x : α) : List α → List α
  | [] => [x]
  | y :: ys =>
    if sortCompare comparefn x y ≤ 0 then x :: y :: ys
    else y :: insertSorted comparefn x ys

/-- `Array.prototype.sort(comparefn)`: a stable comparison sort driven by the
comparator. The returned list is the content of the array after the call: the
method sorts the array it is called on and returns that same array.
ECMAScript fixes the result only for a comparator that is a consistent order,
and there this function gives it. When the comparator answers `NaN` for some
pair of elements (a card whose indicator is unknown) the order is left to the
engine, and the order computed here is one admissible choice, not the one a
given engine makes. -/
def arraySort {α : Type} (comparefn : α → α → Option Int) : List α → List α
  | [] => []
  | x :: xs => insertSorted comparefn x (arraySort comparefn xs)

/-! ## Severity ordering (`render`, lines 242-258) -/

/-- The object literal `indicators` of `render`. -/
def indicatorsTable : List (String × Int) :=
  [("info", 0), ("warning", 1), ("critical", 2), ("error", 3)]

/-- Property lookup `indicators[key]` as the subtraction of the comparator reads it:
`none` is a value that the subtraction turns into `NaN`, which is `undefined`
for an unknown key and the function or object found for a key inherited from
`Object.prototype`. -/
def indicators (key : Option String) : Option Int :=
  match key with
  | none => none
  | some k => indicatorsTable.lookup k

/-- The arrow function `(b, a) => indicators[a.indicator] - indicators[b.indicator]`.
A subtraction with an `undefined` operand is `NaN`. -/
def compareCards (b a : Card) : Option Int :=
  match indicators a.indicator, indicators b.indicator with
  | some x, some y => some (x - y)
  | _, _ => none

/-- The array `this.props.cardResponses.cards.sort(...)` that `forEach` iterates over. -/
def sortedCards (cards : List Card) : List Card :=
  arraySort compareCards cards

/-! ## Effects and collaborators -/

/-- Entry of `acceptedSuggestions`: the object literal `{ id: suggestion.uuid }`. -/
structure AcceptedSuggestion where
  id : Option String
  deriving DecidableEq, Repr

/-- The inner object `{ code, system? }` of an override reason. -/
structure ReasonCoding where
  code : Option String
  system : Option String
  deriving DecidableEq, Repr

/-- The object assigned to `cardFeedback.overrideReason`. -/
structure OverrideReasonField where
  reason : ReasonCoding
  deriving DecidableEq, Repr

/-- The object `cardFeedback`; a key that is never assigned is `none`. -/
structure FeedbackRecord where
  card : Option String
  outcome : String
  acceptedSuggestions : Option (List AcceptedSuggestion)
  outcomeTimestamp : String
  overrideReason : Option OverrideReasonField
  deriving DecidableEq, Repr

/-- The request configuration handed to `axios`. -/
structure HttpRequest where
  method : String
  url : String
  headers : List (String × String)
  feedback : List FeedbackRecord
  deriving DecidableEq, Repr

/-- How the promise returned by `axios` settles. -/
inductive PromiseState where
  | fulfilled
  | rejected
  deriving DecidableEq, Repr

/-- Observable effects of the handlers. -/
inductive Effect where
  | httpRequest (req : HttpRequest)
  | storeDismissCard (serviceUrl : String) (cardUUID : Option String)
  | callTakeSuggestion (suggestion : Suggestion)
  | callOnAppLaunch (link : Link) (launchedWindow : Option Nat)
  | consoleError (message : String) (suggestion : Suggestion)
  | preventDefault
  | windowOpen (url : Option String) (target : String)
  deriving DecidableEq, Repr

/-- Props of the component together with the collaborators its methods call:
the token signer `generateJWT`, the reading of `new Date().toISOString()`, the
way the network settles a request, and the handle `window.open` returns. -/
structure Context where
  isDemoCard : Bool
  hasOnAppLaunch : Bool
  generateJWT : String → String
  now : String
  network : HttpRequest → PromiseState
  openedWindow : Option String → Option Nat

/-! ## Handlers -/

/-- The call `axios(config)`: issues the request and returns its promise. -/
def axios (ctx : Context) (req : HttpRequest) : PromiseState × List Effect :=
  (ctx.network req, [Effect.httpRequest req])

/-- Method `sendFeedback(serviceUrl, cardFeedback)`; the promise returned by
`axios` is dropped. -/
def sendFeedback (ctx : Context) (serviceUrl : String) (cardFeedback : FeedbackRecord) :
    List Effect :=
  let feedbackEndpoint := serviceUrl ++ "/feedback"
  let signedPrivateJWT := ctx.generateJWT feedbackEndpoint
  (axios ctx
    { method := "POST"
      url := feedbackEndpoint
      headers := [("Content-Type", "application/json"),
                  ("Authorization", "Bearer " ++ signedPrivateJWT)]
      feedback := [cardFeedback] }).2

/-- Method `takeSuggestion(suggestion, cardUUID, serviceUrl)`. -/
def takeSuggestion (ctx : Context) (suggestion : Suggestion) (cardUUID : Option String)
    (serviceUrl : String) : List Effect :=
  if !ctx.isDemoCard then
    if truthy suggestion.label then
      (if truthy suggestion.uuid && truthy cardUUID then
        sendFeedback ctx serviceUrl
          { card := cardUUID
            outcome := "accepted"
            acceptedSuggestions := some [{ id := suggestion.uuid }]
            outcomeTimestamp := ctx.now
            overrideReason := none }
      else [])
      ++ [Effect.callTakeSuggestion suggestion]
    else
      [Effect.consoleError "There was no label on this suggestion" suggestion]
  else []

/-- The object `cardFeedback` that `dismissCard` hands to `sendFeedback`. -/
def dismissFeedback (ctx : Context) (cardUUID : Option String)
    (reason : Option OverrideReason) : FeedbackRecord :=
  let cardFeedback : FeedbackRecord :=
    { card := cardUUID
      outcome := "overridden"
      acceptedSuggestions := none
      outcomeTimestamp := ctx.now
      overrideReason := none }
  match reason with
  | none => cardFeedback
  | some r =>
    if truthy r.code then
      { cardFeedback with
        overrideReason := some
          { reason :=
              { code := r.code
                system := if truthy r.system then r.system else none } } }
    else cardFeedback

/-- Method `dismissCard(serviceUrl, cardUUID, reason)`. -/
def dismissCard (ctx : Context) (serviceUrl : String) (cardUUID : Option String)
    (reason : Option OverrideReason) : List Effect :=
  if ctx.isDemoCard then []
  else
    sendFeedback ctx serviceUrl (dismissFeedback ctx cardUUID reason)
      ++ [Effect.storeDismissCard serviceUrl cardUUID]

/-- The query string that `remapUrl` appends to the URL of a SMART link. -/
def launchQuery : String :=
  "?iss=https%3A%2F%2Flaunch.smarthealthit.org%2Fv%2Fr4%2Ffhir&launch=WzAsIiIsImZkN2E3MzdlLTFhYzUtNGM0ZS04OWNkLTFjMDdkYTRjYTFjMiIsIkFVVE8iLDAsMCwwLCIiLCIiLCIiLCIiLCIiLCIiLCIiLDAsMV0"

/-- Method `remapUrl(link)`; `none` is `null`. -/
def remapUrl (link : Link) : Option String :=
  if link.type = "smart" then some (templateString link.url ++ launchQuery)
  else none

/-- Method `launchLink(e, link)`: the returned value and the effects. -/
def launchLink (ctx : Context) (link : Link) : Option Nat × List Effect :=
  if !ctx.isDemoCard then
    if truthyBool link.error then (none, [Effect.preventDefault])
    else
      (ctx.openedWindow (remapUrl link),
        [Effect.preventDefault, Effect.windowOpen (remapUrl link) "_blank"])
  else (none, [])

/-! ## Rendering (`render`, lines 241-428) -/

/-- The button of a suggestion; `onClick` lists the effects of a click. -/
structure SuggestionButton where
  key : Nat
  text : Option String
  onClick : List Effect
  deriving DecidableEq, Repr

/-- The affordance of a link: the button and the notice under it. -/
structure LinkButton where
  key : Nat
  isDisabled : Bool
  title : String
  text : String
  notice : String
  onClick : List Effect
  deriving DecidableEq, Repr

/-- The output of `renderSource` when it is not `null`. -/
structure SourceView where
  href : String
  label : Option String
  icon : Option String
  deriving DecidableEq, Repr

/-- One `Item` of the dismiss split button. -/
structure OverrideItem where
  label : String
  onSelect : List Effect
  deriving DecidableEq, Repr

/-- The dismiss section of a card that has a uuid. -/
inductive DismissSection where
  | splitButton (onSelect : List Effect) (items : List OverrideItem)
  | button (onClick : List Effect)
  deriving DecidableEq, Repr

/-- Result of a property lookup on an object literal whose own values are strings:
nothing, an own value, or the member of `Object.prototype` of that name. -/
inductive PropertyValue where
  | undefined
  | own (value : String)
  | inherited (key : String)
  deriving DecidableEq, Repr

/-- The element `builtCard`. -/
structure BuiltCard where
  key : Nat
  card : Card
  alertClass : String
  summaryColor : PropertyValue
  summary : String
  sourceSection : Option SourceView
  detailSection : Option String
  suggestionsSection : Option (List SuggestionButton)
  linksSection : Option (List LinkButton)
  dismissSection : Option DismissSection
  deriving DecidableEq, Repr

/-- The object literal `summaryColors`. -/
def summaryColorsTable : List (String × String) :=
  [("info", "#0079be"), ("warning", "#ffae42"), ("critical", "#c00"), ("error", "#333")]

/-- The property names every object literal inherits from `Object.prototype`. -/
def objectPrototypeKeys : List String :=
  ["constructor", "__defineGetter__", "__defineSetter__", "hasOwnProperty",
   "__lookupGetter__", "__lookupSetter__", "isPrototypeOf", "propertyIsEnumerable",
   "toString", "valueOf", "__proto__", "toLocaleString"]

/-- Property lookup `summaryColors[key]`; an absent `key` is looked up under the
name `undefined`. -/
def summaryColors (key : Option String) : PropertyValue :=
  match summaryColorsTable.lookup (templateString key) with
  | some color => PropertyValue.own color
  | none =>
    if templateString key ∈ objectPrototypeKeys then
      PropertyValue.inherited (templateString key)
    else PropertyValue.undefined

/-- The copy `JSON.parse(JSON.stringify(c))`: a card holds only JSON data, so the
copy is a fresh object with the same content. -/
def jsonClone (c : Card) : Card := c

/-- Number of own keys of a source object, `Object.keys(source).length`. -/
def sourceKeyCount (s : Source) : Nat :=
  (if s.label.isSome then 1 else 0) + (if s.url.isSome then 1 else 0)
    + (if s.icon.isSome then 1 else 0)

/-- Method `renderSource(source)`; `none` is `null`. -/
def renderSource (ctx : Context) (source : Source) : Option SourceView :=
  if !truthy source.label then none
  else
    let icon := if truthy source.icon then source.icon else none
    if !ctx.isDemoCard then
      some { href := if truthy source.url then templateString source.url else "#"
             label := source.label
             icon := icon }
    else some { href := "#", label := source.label, icon := icon }

/-- The notice of a link that cannot be launched. -/
def unlaunchableText : String :=
  "Cannot launch SMART link without a SMART-enabled FHIR server"

/-- The part of the callback of `card.links.map` that follows
`const remappedUrl = this.remapUrl(link)` (lines 308-332), as a function of the
value bound to `remappedUrl`. -/
def linkButton (ctx : Context) (ind : Nat) (link : Link) (remappedUrl : Option String) :
    LinkButton :=
  let isSmart := decide (link.type = "smart")
  let unlaunchable := isSmart && !truthy remappedUrl
  let unlaunchableNotice := if unlaunchable then unlaunchableText else ""
  { key := ind
    isDisabled := unlaunchable
    title := unlaunchableNotice
    text := link.label
    notice := unlaunchableNotice
    onClick :=
      (launchLink ctx link).2 ++
        (if ctx.hasOnAppLaunch then [Effect.callOnAppLaunch link (launchLink ctx link).1]
         else []) }

/-- The callback of `card.links.map` in `render` (lines 307-333). -/
def renderLink (ctx : Context) (ind : Nat) (link : Link) : LinkButton :=
  let remappedUrl := remapUrl link
  linkButton ctx ind link remappedUrl

/-- The dismiss section built for a card (lines 336-378). -/
def renderDismiss (ctx : Context) (card : Card) : Option DismissSection :=
  if truthy card.uuid then
    match card.overrideReasons with
    | some overrideReasons =>
      some (DismissSection.splitButton
        (dismissCard ctx card.serviceUrl card.uuid none)
        (overrideReasons.map fun reason =>
          { label := "Override: " ++ templateString reason.display
            onSelect := dismissCard ctx card.serviceUrl card.uuid (some reason) }))
    | none =>
      some (DismissSection.button (dismissCard ctx card.serviceUrl card.uuid none))
  else none

/-- The callback of `forEach` in `render`: the element built for one card. -/
def buildCard (ctx : Context) (cardInd : Nat) (c : Card) : BuiltCard :=
  let card := jsonClone c
  { key := cardInd
    card := card
    alertClass := "alert-" ++ templateString card.indicator
    summaryColor := summaryColors card.indicator
    summary := card.summary
    sourceSection :=
      match card.source with
      | some source => if sourceKeyCount source ≠ 0 then renderSource ctx source else none
      | none => none
    detailSection := if truthy card.detail then card.detail else none
    suggestionsSection :=
      card.suggestions.map fun items =>
        items.enum.map fun (ind, item) =>
          { key := ind
            text := item.label
            onClick := takeSuggestion ctx item card.uuid card.serviceUrl }
    linksSection :=
      card.links.map fun links => links.enum.map fun (ind, link) => renderLink ctx ind link
    dismissSection := renderDismiss ctx card }

/-- What `render` returns. -/
inductive Rendered where
  | noCards
  | cards (renderedCards : List BuiltCard)
  deriving DecidableEq, Repr

/-- Result of one call of `render`: the content of the array
`this.props.cardResponses.cards` after the call, and the returned element. -/
structure RenderResult where
  cardsAfter : List Card
  element : Rendered
  deriving DecidableEq, Repr

/-- Method `render()`. `sort` reorders the array `this.props.cardResponses.cards`
itself and `forEach` walks that array, cloning each card it visits. -/
def render (ctx : Context) (cards : List Card) : RenderResult :=
  let sorted := sortedCards cards
  let renderedCards := sorted.enum.map fun (cardInd, c) => buildCard ctx cardInd c
  { cardsAfter := sorted
    element := if renderedCards.length = 0 then Rendered.noCards
               else Rendered.cards renderedCards }

/-- The four severities the table `indicators` knows. -/
def knownIndicators : List (Option String) :=
  [some "info", some "warning", some "critical", some "error"]

/-- The feedback records carried by the requests of an effect list, in order. -/
def feedbackRecords : List Effect → List FeedbackRecord
  | [] => []
  | Effect.httpRequest req :: es => req.feedback ++ feedbackRecords es
  | _ :: es => feedbackRecords es

/-! ## Sample data -/

/-- A context in normal mode whose network rejects every request. -/
def liveCtx : Context :=
  { isDemoCard := false
    hasOnAppLaunch := true
    generateJWT := fun endpoint => "jwt-for-" ++ endpoint
    now := "2024-05-06T07:08:09.000Z"
    network := fun _ => PromiseState.rejected
    openedWindow := fun _ => some 1 }

/-- The same context in demonstration mode. -/
def demoCtx : Context := { liveCtx with isDemoCard := true }

/-- A card with the given indicator and nothing else of interest. -/
def plainCard (uuid : String) (indicator : String) : Card :=
  { uuid := some uuid
    indicator := some indicator
    summary := "summary of " ++ uuid
    detail := none
    source := none
    suggestions := none
    links := none
    overrideReasons := none
    serviceUrl := "https://svc.example/cds" }

/-- An absolute link. -/
def absoluteLink : Link :=
  { label := "Guideline", url := some "https://example.org/guide", type := "absolute",
    error := none }

/-- A SMART link flagged with an error. -/
def flaggedSmartLink : Link :=
  { label := "App", url := some "https://example.org/launch", type := "smart",
    error := some true }

/-- A SMART link without error flag. -/
def smartLink : Link :=
  { label := "App", url := some "https://example.org/launch", type := "smart",
    error := none }

/-- A card that offers the two sample links. -/
def linkedCard : Card :=
  { plainCard "c1" "warning" with links := some [absoluteLink, flaggedSmartLink] }

/-! ## Lemmas on `arraySort` -/

theorem perm_insertSorted {α : Type} (f : α → α → Option Int) (x : α) :
    ∀ l : List α, (insertSorted f x l).Perm (x :: l)
  | [] => List.Perm.refl _
  | y :: ys => by
    unfold insertSorted
    split
    · exact List.Perm.refl _
    · exact ((perm_insertSorted f x ys).cons y).trans (List.Perm.swap x y ys)

theorem perm_arraySort {α : Type} (f : α → α → Option Int) :
    ∀ l : List α, (arraySort f l).Perm l
  | [] => List.Perm.refl _
  | x :: xs => by
    unfold arraySort
    exact (perm_insertSorted f x _).trans ((perm_arraySort f xs).cons x)

theorem pairwise_insertSorted {α : Type} (f : α → α → Option Int) (k : α → Int) (x : α) :
    ∀ l : List α,
      (∀ a ∈ x :: l, ∀ b ∈ x :: l, (sortCompare f a b ≤ 0 ↔ k b ≤ k a)) →
      l.Pairwise (fun a b => k b ≤ k a) →
      (insertSorted f x l).Pairwise (fun a b => k b ≤ k a)
  | [], _, _ => by simp [insertSorted]
  | y :: ys, hf, hl => by
    have hxy := hf x (by simp) y (by simp)
    rw [List.pairwise_cons] at hl
    unfold insertSorted
    split
    · rename_i h
      have hyx : k y ≤ k x := hxy.mp h
      refine List.pairwise_cons.mpr ⟨?_, List.pairwise_cons.mpr hl⟩
      intro b hb
      rcases List.mem_cons.mp hb with rfl | hb
      · exact hyx
      · exact le_trans (hl.1 b hb) hyx
    · rename_i h
      have hlt : k x < k y := by
        by_contra hc
        exact h (hxy.mpr (not_lt.mp hc))
      refine List.pairwise_cons.mpr ⟨?_, ?_⟩
      · intro b hb
        rcases List.mem_cons.mp ((perm_insertSorted f x ys).mem_iff.mp hb) with rfl | hb
        · exact le_of_lt hlt
        · exact hl.1 b hb
      · refine pairwise_insertSorted f k x ys ?_ hl.2
        intro a ha b hb
        refine hf a ?_ b ?_
        · rcases List.mem_cons.mp ha with rfl | ha
          · simp
          · simp [ha]
        · rcases List.mem_cons.mp hb with rfl | hb
          · simp
          · simp [hb]

theorem pairwise_arraySort {α : Type} (f : α → α → Option Int) (k : α → Int) :
    ∀ l : List α,
      (∀ a ∈ l, ∀ b ∈ l, (sortCompare f a b ≤ 0 ↔ k b ≤ k a)) →
      (arraySort f l).Pairwise (fun a b => k b ≤ k a)
  | [], _ => by simp [arraySort]
  | x :: xs, hf => by
    unfold arraySort
    refine pairwise_insertSorted f k x _ ?_ ?_
    · intro a ha b hb
      refine hf a ?_ b ?_
      · rcases List.mem_cons.mp ha with rfl | ha
        · simp
        · exact List.mem_cons_of_mem _ ((perm_arraySort f xs).mem_iff.mp ha)
      · rcases List.mem_cons.mp hb with rfl | hb
        · simp
        · exact List.mem_cons_of_mem _ ((perm_arraySort f xs).mem_iff.mp hb)
    · exact pairwise_arraySort f k xs fun a ha b hb =>
        hf a (List.mem_cons_of_mem _ ha) b (List.mem_cons_of_mem _ hb)

theorem indicators_of_known (i : Option String) (h : i ∈ knownIndicators) :
    ∃ r : Int, indicators i = some r := by
  simp only [knownIndicators, List.mem_cons, List.mem_singleton, List.not_mem_nil,
    or_false] at h
  rcases h with rfl | rfl | rfl | rfl
  · exact ⟨0, by simp [indicators, indicatorsTable, List.lookup]⟩
  · exact ⟨1, by simp [indicators, indicatorsTable, List.lookup]⟩
  · exact ⟨2, by simp [indicators, indicatorsTable, List.lookup]⟩
  · exact ⟨3, by simp [indicators, indicatorsTable, List.lookup]⟩

theorem sortCompare_compareCards (x y : Card) (rx ry : Int)
    (hx : indicators x.indicator = some rx) (hy : indicators y.indicator = some ry) :
    sortCompare compareCards x y = ry - rx := by
  simp [sortCompare, compareCards, hx, hy]

/-! ## Claims -/

/-- C1. For every list of cards whose indicators are all among info, warning,
critical and error, the sequence that `render` iterates over is a permutation of
the input and is ordered by non-increasing severity rank, the ranks being
error = 3, critical = 2, warning = 1 and info = 0: no card stands before a card
of strictly higher rank. -/
theorem sortedCards_perm_ordered (cards : List Card)
    (h : ∀ c ∈ cards, c.indicator ∈ knownIndicators) :
    (sortedCards cards).Perm cards
    ∧ (sortedCards cards).Pairwise (fun x y =>
        ∃ rx ry : Int, indicators x.indicator = some rx
          ∧ indicators y.indicator = some ry ∧ ry ≤ rx)
    ∧ indicators (some "error") = some 3 ∧ indicators (some "critical") = some 2
    ∧ indicators (some "warning") = some 1 ∧ indicators (some "info") = some 0 := by
  refine ⟨perm_arraySort _ _, ?_, ?_, ?_, ?_, ?_⟩
  · have hp : (arraySort compareCards cards).Pairwise
        (fun a b => (indicators b.indicator).getD 0 ≤ (indicators a.indicator).getD 0) := by
      refine pairwise_arraySort compareCards (fun c => (indicators c.indicator).getD 0) cards ?_
      intro a ha b hb
      obtain ⟨ra, hra⟩ := indicators_of_known _ (h a ha)
      obtain ⟨rb, hrb⟩ := indicators_of_known _ (h b hb)
      rw [sortCompare_compareCards a b ra rb hra hrb]
      simp [hra, hrb]
    refine List.Pairwise.imp_of_mem ?_ hp
    intro a b ha hb hab
    obtain ⟨ra, hra⟩ := indicators_of_known _
      (h a ((perm_arraySort compareCards cards).mem_iff.mp ha))
    obtain ⟨rb, hrb⟩ := indicators_of_known _
      (h b ((perm_arraySort compareCards cards).mem_iff.mp hb))
    refine ⟨ra, rb, hra, hrb, ?_⟩
    simpa [hra, hrb] using hab
  · simp [indicators, indicatorsTable, List.lookup]
  · simp [indicators, indicatorsTable, List.lookup]
  · simp [indicators, indicatorsTable, List.lookup]
  · simp [indicators, indicatorsTable, List.lookup]

/-- C1, witness: three cards given as info, error, warning. -/
theorem sortedCards_perm_ordered_witness :
    (∀ c ∈ [plainCard "a" "info", plainCard "b" "error", plainCard "c" "warning"],
        c.indicator ∈ knownIndicators)
    ∧ (sortedCards [plainCard "a" "info", plainCard "b" "error", plainCard "c" "warning"]).Perm
        [plainCard "a" "info", plainCard "b" "error", plainCard "c" "warning"]
    ∧ (sortedCards [plainCard "a" "info", plainCard "b" "error", plainCard "c" "warning"]).Pairwise
        (fun x y => ∃ rx ry : Int, indicators x.indicator = some rx
          ∧ indicators y.indicator = some ry ∧ ry ≤ rx)
    ∧ indicators (some "error") = some 3 ∧ indicators (some "critical") = some 2
    ∧ indicators (some "warning") = some 1 ∧ indicators (some "info") = some 0 :=
  ⟨by simp [plainCard, knownIndicators],
   sortedCards_perm_ordered _ (by simp [plainCard, knownIndicators])⟩

/-- C2. In normal mode, a suggestion with a label and a uuid `s`, on a card with uuid
`c` served from `u`, makes `takeSuggestion` issue exactly one request, a POST to
`u + "/feedback"` whose body holds the single record with card `c`, outcome
accepted, the one accepted suggestion `s`, the construction time and no
override reason, and then call the caller's `takeSuggestion` once with that
suggestion. -/
theorem takeSuggestion_accepted (ctx : Context) (suggestion : Suggestion) (s c u : String)
    (hmode : ctx.isDemoCard = false) (hlabel : truthy suggestion.label = true)
    (huuid : suggestion.uuid = some s) (hs : s ≠ "") (hc : c ≠ "") :
    takeSuggestion ctx suggestion (some c) u =
      [Effect.httpRequest
        { method := "POST"
          url := u ++ "/feedback"
          headers := [("Content-Type", "application/json"),
                      ("Authorization", "Bearer " ++ ctx.generateJWT (u ++ "/feedback"))]
          feedback :=
            [{ card := some c
               outcome := "accepted"
               acceptedSuggestions := some [{ id := some s }]
               outcomeTimestamp := ctx.now
               overrideReason := none }] },
       Effect.callTakeSuggestion suggestion] := by
  have h1 : truthy (some s) = true := by simp [truthy, hs]
  have h2 : truthy (some c) = true := by simp [truthy, hc]
  simp [takeSuggestion, sendFeedback, axios, hmode, hlabel, huuid, h1, h2]

/-- C2, witness: suggestion `s1` of card `c1`. -/
theorem takeSuggestion_accepted_witness :
    takeSuggestion liveCtx { label := some "Order test", uuid := some "s1" } (some "c1")
        "https://svc.example/cds" =
      [Effect.httpRequest
        { method := "POST"
          url := "https://svc.example/cds" ++ "/feedback"
          headers := [("Content-Type", "application/json"),
                      ("Authorization",
                        "Bearer " ++ liveCtx.generateJWT ("https://svc.example/cds" ++ "/feedback"))]
          feedback :=
            [{ card := some "c1"
               outcome := "accepted"
               acceptedSuggestions := some [{ id := some "s1" }]
               outcomeTimestamp := liveCtx.now
               overrideReason := none }] },
       Effect.callTakeSuggestion { label := some "Order test", uuid := some "s1" }] :=
  takeSuggestion_accepted liveCtx { label := some "Order test", uuid := some "s1" }
    "s1" "c1" "https://svc.example/cds" rfl (by simp [truthy]) rfl (by simp) (by simp)

/-- C3. A suggestion without a label (absent or empty) makes `takeSuggestion`, for
every card uuid, service URL and mode, dispatch no feedback and never call the
acceptance callback; in normal mode the only effect is the logged diagnostic. -/
theorem takeSuggestion_no_label (ctx : Context) (suggestion : Suggestion)
    (cardUUID : Option String) (serviceUrl : String)
    (hlabel : suggestion.label = none ∨ suggestion.label = some "") :
    (∀ req, Effect.httpRequest req ∉ takeSuggestion ctx suggestion cardUUID serviceUrl)
    ∧ feedbackRecords (takeSuggestion ctx suggestion cardUUID serviceUrl) = []
    ∧ (∀ sg, Effect.callTakeSuggestion sg ∉ takeSuggestion ctx suggestion cardUUID serviceUrl)
    ∧ (ctx.isDemoCard = false →
        takeSuggestion ctx suggestion cardUUID serviceUrl =
          [Effect.consoleError "There was no label on this suggestion" suggestion]) := by
  have hl : truthy suggestion.label = false := by
    rcases hlabel with h | h <;> simp [h, truthy]
  cases hd : ctx.isDemoCard <;>
    simp [takeSuggestion, hl, hd, feedbackRecords]

/-- C3, witness: a suggestion with an empty label in normal mode. -/
theorem takeSuggestion_no_label_witness :
    (∀ req, Effect.httpRequest req ∉
        takeSuggestion liveCtx { label := some "", uuid := some "s1" } (some "c1") "https://svc")
    ∧ feedbackRecords
        (takeSuggestion liveCtx { label := some "", uuid := some "s1" } (some "c1") "https://svc")
        = []
    ∧ (∀ sg, Effect.callTakeSuggestion sg ∉
        takeSuggestion liveCtx { label := some "", uuid := some "s1" } (some "c1") "https://svc")
    ∧ (liveCtx.isDemoCard = false →
        takeSuggestion liveCtx { label := some "", uuid := some "s1" } (some "c1") "https://svc" =
          [Effect.consoleError "There was no label on this suggestion"
            { label := some "", uuid := some "s1" }]) :=
  takeSuggestion_no_label liveCtx { label := some "", uuid := some "s1" } (some "c1")
    "https://svc" (Or.inr rfl)

/-- C4. In normal mode, a suggestion that has a label but whose uuid is missing, or
whose parent card uuid is missing, makes `takeSuggestion` dispatch no feedback
and still call the caller's `takeSuggestion` exactly once with that suggestion. -/
theorem takeSuggestion_not_eligible (ctx : Context) (suggestion : Suggestion)
    (cardUUID : Option String) (serviceUrl : String)
    (hmode : ctx.isDemoCard = false) (hlabel : truthy suggestion.label = true)
    (hmissing : truthy suggestion.uuid = false ∨ truthy cardUUID = false) :
    takeSuggestion ctx suggestion cardUUID serviceUrl = [Effect.callTakeSuggestion suggestion]
    ∧ feedbackRecords (takeSuggestion ctx suggestion cardUUID serviceUrl) = [] := by
  rcases hmissing with h | h <;>
    simp [takeSuggestion, hmode, hlabel, h, feedbackRecords]

/-- C4, witness: a labelled suggestion without uuid. -/
theorem takeSuggestion_not_eligible_witness :
    takeSuggestion liveCtx { label := some "Order test", uuid := none } (some "c1") "https://svc"
        = [Effect.callTakeSuggestion { label := some "Order test", uuid := none }]
    ∧ feedbackRecords
        (takeSuggestion liveCtx { label := some "Order test", uuid := none } (some "c1")
          "https://svc") = [] :=
  takeSuggestion_not_eligible liveCtx { label := some "Order test", uuid := none } (some "c1")
    "https://svc" rfl (by simp [truthy]) (Or.inl (by simp [truthy]))

/-- C5. In normal mode, for every card uuid `c` and every optional reason, the one
feedback record dispatched by `dismissCard` has card `c`, outcome overridden,
the construction time as timestamp and no `acceptedSuggestions`; it carries
`overrideReason` exactly when `reason.code` is present, then with that code and
with a `system` key, equal to `reason.system`, exactly when `reason.system` is
present too. A reason with code X and system Y gives the override reason with
code X and system Y, a reason with code X alone gives code X and no system key,
and no reason, or a reason with a system but no code, gives no override reason. -/
theorem dismissCard_feedback_record (ctx : Context) (u : String) (c : Option String)
    (reason : Option OverrideReason) (hmode : ctx.isDemoCard = false) :
    (∃ r : FeedbackRecord, feedbackRecords (dismissCard ctx u c reason) = [r]
      ∧ r.card = c ∧ r.outcome = "overridden" ∧ r.outcomeTimestamp = ctx.now
      ∧ r.acceptedSuggestions = none
      ∧ (r.overrideReason.isSome = true ↔ ∃ rs, reason = some rs ∧ truthy rs.code = true)
      ∧ (∀ rs, reason = some rs → truthy rs.code = true →
          ∃ o : OverrideReasonField, r.overrideReason = some o ∧ o.reason.code = rs.code
            ∧ (o.reason.system.isSome = true ↔ truthy rs.system = true)
            ∧ (truthy rs.system = true → o.reason.system = rs.system)))
    ∧ (∀ d, (feedbackRecords (dismissCard ctx u c
          (some { code := some "X", system := some "Y", display := d }))).map
          (fun r => r.overrideReason)
        = [some { reason := { code := some "X", system := some "Y" } }])
    ∧ (∀ d, (feedbackRecords (dismissCard ctx u c
          (some { code := some "X", system := none, display := d }))).map
          (fun r => r.overrideReason)
        = [some { reason := { code := some "X", system := none } }])
    ∧ (feedbackRecords (dismissCard ctx u c none)).map (fun r => r.overrideReason) = [none]
    ∧ (∀ d, (feedbackRecords (dismissCard ctx u c
          (some { code := none, system := some "Y", display := d }))).map
          (fun r => r.overrideReason)
        = [none]) := by
  refine ⟨⟨dismissFeedback ctx c reason, ?_, ?_, ?_, ?_, ?_, ?_, ?_⟩, ?_, ?_, ?_, ?_⟩
  · simp [dismissCard, hmode, sendFeedback, axios, feedbackRecords]
  · cases reason with
    | none => rfl
    | some rs => unfold dismissFeedback; dsimp only; split <;> rfl
  · cases reason with
    | none => rfl
    | some rs => unfold dismissFeedback; dsimp only; split <;> rfl
  · cases reason with
    | none => rfl
    | some rs => unfold dismissFeedback; dsimp only; split <;> rfl
  · cases reason with
    | none => rfl
    | some rs => unfold dismissFeedback; dsimp only; split <;> rfl
  · cases reason with
    | none => simp [dismissFeedback]
    | some rs =>
      cases hcode : truthy rs.code <;> simp [dismissFeedback, hcode]
  · intro rs hrs hcode
    subst hrs
    cases hsys : truthy rs.system
    · simp [dismissFeedback, hcode, hsys]
    · have hsome : rs.system.isSome = true := by
        cases hv : rs.system with
        | none => simp [hv, truthy] at hsys
        | some v => rfl
      simp [dismissFeedback, hcode, hsys, hsome]
  · intro d
    simp [dismissCard, hmode, sendFeedback, axios, feedbackRecords, dismissFeedback, truthy]
  · intro d
    simp [dismissCard, hmode, sendFeedback, axios, feedbackRecords, dismissFeedback, truthy]
  · simp [dismissCard, hmode, sendFeedback, axios, feedbackRecords, dismissFeedback]
  · intro d
    simp [dismissCard, hmode, sendFeedback, axios, feedbackRecords, dismissFeedback, truthy]

/-- C6. In normal mode, for every service URL `u`, card uuid `c` and optional
reason, `dismissCard` issues exactly one feedback request, to the feedback
endpoint of `u`, and then exactly one store-removal request keyed by `u` and
`c`; this holds for every reason and however the network settles the request. -/
theorem dismissCard_effects (ctx : Context) (u : String) (c : Option String)
    (reason : Option OverrideReason) (hmode : ctx.isDemoCard = false) :
    dismissCard ctx u c reason =
      [Effect.httpRequest
        { method := "POST"
          url := u ++ "/feedback"
          headers := [("Content-Type", "application/json"),
                      ("Authorization", "Bearer " ++ ctx.generateJWT (u ++ "/feedback"))]
          feedback := [dismissFeedback ctx c reason] },
       Effect.storeDismissCard u c]
    ∧ (∀ net : HttpRequest → PromiseState,
        dismissCard { ctx with network := net } u c reason = dismissCard ctx u c reason)
    ∧ (dismissCard ctx u c reason).filter
        (fun e => match e with
          | Effect.storeDismissCard _ _ => true
          | _ => false)
        = [Effect.storeDismissCard u c] := by
  refine ⟨?_, ?_, ?_⟩
  · simp [dismissCard, hmode, sendFeedback, axios]
  · intro net
    simp [dismissCard, hmode, sendFeedback, axios, dismissFeedback]
  · simp [dismissCard, hmode, sendFeedback, axios]

/-- C7. In demonstration mode, whatever the input, `takeSuggestion` and
`dismissCard` perform no effect at all, and `launchLink` returns null without
opening a window and without calling `preventDefault`. -/
theorem demo_mode_no_effects (ctx : Context) (hmode : ctx.isDemoCard = true) :
    (∀ suggestion cardUUID serviceUrl, takeSuggestion ctx suggestion cardUUID serviceUrl = [])
    ∧ (∀ serviceUrl cardUUID reason, dismissCard ctx serviceUrl cardUUID reason = [])
    ∧ (∀ link, launchLink ctx link = (none, [])) := by
  refine ⟨?_, ?_, ?_⟩
  · intro suggestion cardUUID serviceUrl
    simp [takeSuggestion, hmode]
  · intro serviceUrl cardUUID reason
    simp [dismissCard, hmode]
  · intro link
    simp [launchLink, hmode]

/-- C5, witness: dismissal of card `c1` with a reason that has a code and a system. -/
theorem dismissCard_feedback_record_witness :
    liveCtx.isDemoCard = false
    ∧ ∃ r : FeedbackRecord,
        feedbackRecords (dismissCard liveCtx "https://svc" (some "c1")
          (some { code := some "X", system := some "Y", display := some "why" })) = [r]
      ∧ r.card = some "c1" ∧ r.outcome = "overridden" ∧ r.outcomeTimestamp = liveCtx.now
      ∧ r.acceptedSuggestions = none
      ∧ (r.overrideReason.isSome = true ↔
          ∃ rs, some ({ code := some "X", system := some "Y", display := some "why" } :
            OverrideReason) = some rs ∧ truthy rs.code = true)
      ∧ (∀ rs, some ({ code := some "X", system := some "Y", display := some "why" } :
            OverrideReason) = some rs → truthy rs.code = true →
          ∃ o : OverrideReasonField, r.overrideReason = some o ∧ o.reason.code = rs.code
            ∧ (o.reason.system.isSome = true ↔ truthy rs.system = true)
            ∧ (truthy rs.system = true → o.reason.system = rs.system)) :=
  ⟨rfl, (dismissCard_feedback_record liveCtx "https://svc" (some "c1")
    (some { code := some "X", system := some "Y", display := some "why" }) rfl).1⟩

/-- C6, witness: dismissal of card `c1` without a reason, the network rejecting. -/
theorem dismissCard_effects_witness :
    liveCtx.isDemoCard = false
    ∧ dismissCard liveCtx "https://svc" (some "c1") none =
      [Effect.httpRequest
        { method := "POST"
          url := "https://svc" ++ "/feedback"
          headers := [("Content-Type", "application/json"),
                      ("Authorization", "Bearer " ++ liveCtx.generateJWT ("https://svc" ++ "/feedback"))]
          feedback := [dismissFeedback liveCtx (some "c1") none] },
       Effect.storeDismissCard "https://svc" (some "c1")] :=
  ⟨rfl, (dismissCard_effects liveCtx "https://svc" (some "c1") none rfl).1⟩

/-- C7, witness: the sample context in demonstration mode. -/
theorem demo_mode_no_effects_witness :
    demoCtx.isDemoCard = true
    ∧ (∀ suggestion cardUUID serviceUrl,
        takeSuggestion demoCtx suggestion cardUUID serviceUrl = [])
    ∧ (∀ serviceUrl cardUUID reason, dismissCard demoCtx serviceUrl cardUUID reason = [])
    ∧ (∀ link, launchLink demoCtx link = (none, [])) :=
  ⟨rfl, demo_mode_no_effects demoCtx rfl⟩

theorem launchQuery_ne_empty : launchQuery ≠ "" := by
  simp [launchQuery]

theorem append_launchQuery_ne_empty (s : String) : s ++ launchQuery ≠ "" := by
  intro h
  have hdata := congrArg String.data h
  rw [String.data_append] at hdata
  have hq : launchQuery.data = [] := (List.append_eq_nil.mp hdata).2
  exact launchQuery_ne_empty (String.ext hq)

theorem truthy_remapUrl_of_smart (link : Link) (h : link.type = "smart") :
    truthy (remapUrl link) = true := by
  simp [remapUrl, h, truthy, append_launchQuery_ne_empty]

/-- C8. For every link, `remapUrl` is null when the type is absolute, and for any
type other than smart; when the type is smart it is the non-null string made of
`link.url` followed by the fixed launch-context query string, which is
`?iss=` with the encoded issuer, then `&launch=` with the encoded launch value.
So a smart link resolves to a non-null, non-empty URL that starts with
`link.url` and ends with that launch context, and the result depends neither on
`link.error` nor on the label (the mode is no input of `remapUrl`). -/
theorem remapUrl_spec (link : Link) :
    (link.type = "absolute" → remapUrl link = none)
    ∧ (link.type ≠ "smart" → remapUrl link = none)
    ∧ (link.type = "smart" →
        remapUrl link = some (templateString link.url ++
          "?iss=https%3A%2F%2Flaunch.smarthealthit.org%2Fv%2Fr4%2Ffhir&launch=WzAsIiIsImZkN2E3MzdlLTFhYzUtNGM0ZS04OWNkLTFjMDdkYTRjYTFjMiIsIkFVVE8iLDAsMCwwLCIiLCIiLCIiLCIiLCIiLCIiLCIiLDAsMV0")
        ∧ (remapUrl link).isSome = true
        ∧ remapUrl link ≠ some ""
        ∧ (∃ r, remapUrl link = some r
            ∧ (templateString link.url).data <+: r.data
            ∧ launchQuery.data <:+ r.data)
        ∧ ∀ url, link.url = some url →
            remapUrl link = some (url ++ launchQuery)
            ∧ url.data <+: (url ++ launchQuery).data
            ∧ launchQuery.data <:+ (url ++ launchQuery).data)
    ∧ launchQuery =
        "?iss=" ++ "https%3A%2F%2Flaunch.smarthealthit.org%2Fv%2Fr4%2Ffhir"
          ++ "&launch="
          ++ "WzAsIiIsImZkN2E3MzdlLTFhYzUtNGM0ZS04OWNkLTFjMDdkYTRjYTFjMiIsIkFVVE8iLDAsMCwwLCIiLCIiLCIiLCIiLCIiLCIiLCIiLDAsMV0"
    ∧ launchQuery ≠ ""
    ∧ (∀ e l, remapUrl { link with error := e, label := l } = remapUrl link) := by
  refine ⟨?_, ?_, ?_, ?_, launchQuery_ne_empty, ?_⟩
  · intro h
    simp [remapUrl, h]
  · intro h
    simp [remapUrl, h]
  · intro h
    refine ⟨by simp [remapUrl, h, launchQuery], by simp [remapUrl, h], ?_, ?_, ?_⟩
    · simp [remapUrl, h, append_launchQuery_ne_empty]
    · refine ⟨templateString link.url ++ launchQuery, by simp [remapUrl, h], ?_, ?_⟩
      · rw [String.data_append]
        exact List.prefix_append _ _
      · rw [String.data_append]
        exact List.suffix_append _ _
    · intro url hurl
      refine ⟨by simp [remapUrl, h, hurl, templateString], ?_, ?_⟩
      · rw [String.data_append]
        exact List.prefix_append _ _
      · rw [String.data_append]
        exact List.suffix_append _ _
  · simp [launchQuery]
  · intro e l
    simp [remapUrl]

/-- C8, witness: the absolute and the flagged SMART link of the samples. -/
theorem remapUrl_spec_witness :
    remapUrl absoluteLink = none
    ∧ remapUrl flaggedSmartLink = some (templateString (some "https://example.org/launch") ++
        "?iss=https%3A%2F%2Flaunch.smarthealthit.org%2Fv%2Fr4%2Ffhir&launch=WzAsIiIsImZkN2E3MzdlLTFhYzUtNGM0ZS04OWNkLTFjMDdkYTRjYTFjMiIsIkFVVE8iLDAsMCwwLCIiLCIiLCIiLCIiLCIiLCIiLCIiLDAsMV0") :=
  ⟨(remapUrl_spec absoluteLink).1 rfl, ((remapUrl_spec flaggedSmartLink).2.2.1 rfl).1⟩

/-- C9, as stated, fails: the absolute sample link has a null remapped URL and the
flagged SMART link has `link.error` set, yet the card that offers both is
rendered with both affordances enabled and with empty notices. -/
theorem unlaunchable_link_counterexample :
    remapUrl absoluteLink = none
    ∧ truthyBool flaggedSmartLink.error = true
    ∧ linkedCard.links = some [absoluteLink, flaggedSmartLink]
    ∧ ∃ bc : BuiltCard, (render liveCtx [linkedCard]).element = Rendered.cards [bc]
        ∧ bc.linksSection.map (fun ls => ls.map fun b => (b.isDisabled, b.title, b.notice))
            = some [(false, "", ""), (false, "", "")] := by
  refine ⟨by simp [remapUrl, absoluteLink], rfl, rfl, buildCard liveCtx 0 linkedCard, ?_, ?_⟩
  · simp [render, sortedCards, arraySort, insertSorted, List.enum, List.enumFrom]
  · simp [buildCard, jsonClone, linkedCard, List.enum, List.enumFrom, renderLink, linkButton,
      absoluteLink, flaggedSmartLink, truthy_remapUrl_of_smart]

/-- C9, amended. The affordance of a link of a rendered card is disabled, and
carries the non-empty notice (as title and as inline text), exactly when the
link is of type smart and has no remapped URL, the value `render` obtains for
it from `remapUrl` being null or empty. The notice is the fixed text
`Cannot launch SMART link without a SMART-enabled FHIR server`. -/
theorem renderLink_disabled_iff (ctx : Context) (ind : Nat) (link : Link)
    (remappedUrl : Option String) (cardInd : Nat) (c : Card) :
    ((linkButton ctx ind link remappedUrl).isDisabled = true
        ↔ link.type = "smart" ∧ (remappedUrl = none ∨ remappedUrl = some ""))
    ∧ ((linkButton ctx ind link remappedUrl).notice ≠ ""
        ↔ (linkButton ctx ind link remappedUrl).isDisabled = true)
    ∧ (linkButton ctx ind link remappedUrl).notice
        = (if (linkButton ctx ind link remappedUrl).isDisabled
            then "Cannot launch SMART link without a SMART-enabled FHIR server" else "")
    ∧ (linkButton ctx ind link remappedUrl).title
        = (linkButton ctx ind link remappedUrl).notice
    ∧ renderLink ctx ind link = linkButton ctx ind link (remapUrl link)
    ∧ ((renderLink ctx ind link).isDisabled = true
        ↔ link.type = "smart" ∧ (remapUrl link = none ∨ remapUrl link = some ""))
    ∧ ((renderLink ctx ind link).notice ≠ "" ↔ (renderLink ctx ind link).isDisabled = true)
    ∧ (buildCard ctx cardInd c).linksSection
        = c.links.map (fun links => links.enum.map fun (p : Nat × Link) =>
            renderLink ctx p.1 p.2) := by
  have hfalsy : ∀ r : Option String, truthy r = false ↔ (r = none ∨ r = some "") := by
    intro r
    cases r with
    | none => simp [truthy]
    | some v => simp [truthy]
  have hdis : ∀ r : Option String, (linkButton ctx ind link r).isDisabled = true
      ↔ link.type = "smart" ∧ (r = none ∨ r = some "") := by
    intro r
    rw [← hfalsy r]
    simp [linkButton]
  have hnotice : ∀ r : Option String, (linkButton ctx ind link r).notice ≠ ""
      ↔ (linkButton ctx ind link r).isDisabled = true := by
    intro r
    cases hd : (decide (link.type = "smart") && !truthy r) <;>
      simp [linkButton, hd, unlaunchableText]
  refine ⟨hdis remappedUrl, hnotice remappedUrl, ?_, rfl, rfl, hdis (remapUrl link),
    hnotice (remapUrl link), ?_⟩
  · simp [linkButton, unlaunchableText]
  · simp only [buildCard, jsonClone]

/-- C9 amended, witness: a smart link for which no remapped URL is found is
rendered disabled with the notice. -/
theorem renderLink_disabled_iff_witness :
    (linkButton liveCtx 0 smartLink none).isDisabled = true
    ∧ (linkButton liveCtx 0 smartLink none).notice ≠ ""
    ∧ ¬ ((linkButton liveCtx 0 absoluteLink none).isDisabled = true) :=
  ⟨(renderLink_disabled_iff liveCtx 0 smartLink none 0 linkedCard).1.mpr
      ⟨rfl, Or.inl rfl⟩,
   (renderLink_disabled_iff liveCtx 0 smartLink none 0 linkedCard).2.1.mpr
      ((renderLink_disabled_iff liveCtx 0 smartLink none 0 linkedCard).1.mpr
        ⟨rfl, Or.inl rfl⟩),
   fun h => absurd
      ((renderLink_disabled_iff liveCtx 0 absoluteLink none 0 linkedCard).1.mp h).1
      (by simp [absoluteLink])⟩

/-- C10, at the failing input: rendering the two cards info, error leaves the prop
array holding error, info, which is not the order it was given in. -/
theorem render_reorders_props_cards :
    (render liveCtx [plainCard "a" "info", plainCard "b" "error"]).cardsAfter
        = [plainCard "b" "error", plainCard "a" "info"]
    ∧ (render liveCtx [plainCard "a" "info", plainCard "b" "error"]).cardsAfter
        ≠ [plainCard "a" "info", plainCard "b" "error"] := by
  have h : (render liveCtx [plainCard "a" "info", plainCard "b" "error"]).cardsAfter
      = [plainCard "b" "error", plainCard "a" "info"] := by
    simp [render, sortedCards, arraySort, insertSorted, sortCompare, compareCards,
      indicators, indicatorsTable, List.lookup, plainCard]
  refine ⟨h, ?_⟩
  rw [h]
  simp [plainCard]

end CardList
